import Mathlib

/-!
Shallow embedding of `src/NessusClient/nessus_client.py` (class `NessusClient`).

The HTTP world is modelled by an oracle `Env : Request → Response`.  Each client
method becomes a pure Lean function from the session state, its arguments and
the oracle to a `CallResult`: the session state after the call, the value the
method returns, the list of HTTP requests it issued, and the diagnostics it
printed.  `requests.session()` header state is the `headers` association list
of `Session`; the library attaches it to every outgoing request, which the
embedding reflects by copying `s.headers` into each constructed `Request`.
The default headers installed by the `requests` library at session creation are
abstracted as the empty map: no behaviour of this client depends on them, and
construction with an API-key pair replaces the whole header map anyway.
-/

namespace Nessus

/-- JSON values: what `response.json()` yields and what request payloads hold.
Objects keep insertion order, like Python dicts. -/
inductive Json where
  | null
  | bool (b : Bool)
  | num (n : Int)
  | str (s : String)
  | arr (elems : List Json)
  | obj (fields : List (String × Json))
  deriving Repr

/-- Python `d[k]` on a parsed JSON object: `some` the value, `none` = `KeyError`. -/
def Json.lookup (j : Json) (k : String) : Option Json :=
  match j with
  | Json.obj fields => fields.lookup k
  | _ => Option.none

mutual

/-- Python `repr()` of a parsed-JSON value (used by `str()` on containers). -/
def Json.pyRepr : Json → String
  | Json.null => "None"
  | Json.bool b => if b then "True" else "False"
  | Json.num n => toString n
  | Json.str s => "\x27" ++ s ++ "\x27"
  | Json.arr elems => "[" ++ Json.pyReprElems elems ++ "]"
  | Json.obj fields => "\x7b" ++ Json.pyReprFields fields ++ "\x7d"

def Json.pyReprElems : List Json → String
  | [] => ""
  | [x] => Json.pyRepr x
  | x :: xs => Json.pyRepr x ++ ", " ++ Json.pyReprElems xs

def Json.pyReprFields : List (String × Json) → String
  | [] => ""
  | [(k, v)] => "\x27" ++ k ++ "\x27: " ++ Json.pyRepr v
  | (k, v) :: fs => "\x27" ++ k ++ "\x27: " ++ Json.pyRepr v ++ ", " ++ Json.pyReprFields fs

end

/-- Python `str()` as used by f-string interpolation (`f"token={x};"`). -/
def Json.pyStr : Json → String
  | Json.str s => s
  | j => Json.pyRepr j

/-- HTTP verb used by the client. -/
inductive HMethod where
  | get
  | post
  | put
  deriving Repr

/-- Request body: `data=payload` (form kwarg) or `json=payload` (json kwarg). -/
inductive Body where
  | form (j : Json)
  | jsonPayload (j : Json)
  deriving Repr

/-- One outgoing HTTP request, as handed to the `requests` session.  Query
parameter values are `Option Int` because the client only ever sends integer
parameters; a `none` value is a Python `None` in the param dict. -/
structure Request where
  method : HMethod
  url : String
  headers : List (String × String)
  params : Option (List (String × Option Int))
  body : Option Body
  deriving Repr

/-- One HTTP response, with the fields of a `requests` response the client
reads: `status_code`, `headers`, `text`, `json()` (here `jsonBody`) and the raw
`content` bytes. -/
structure Response where
  status_code : Nat
  headers : List (String × String)
  text : String
  jsonBody : Json
  content : List Nat
  deriving Repr

/-- The mutable client state: credentials, base URL, the session header map and
the TLS-verification flag (`self.session.verify`). -/
structure Session where
  username : Option String
  password : Option String
  base_url : String
  headers : List (String × String)
  verify : Bool
  deriving Repr

/-- One `print(status_code, "\n", headers, "\n", text)` diagnostic line. -/
structure Diag where
  status : Nat
  headers : List (String × String)
  text : String
  deriving Repr

/-- A method's return value: parsed JSON, raw bytes, or Python `None`. -/
inductive Ret where
  | json (j : Json)
  | bytes (b : List Nat)
  | none
  deriving Repr

/-- Everything one method call produces: the session state afterwards, the
returned value, the requests issued, and the diagnostics printed. -/
structure CallResult where
  session : Session
  ret : Ret
  requests : List Request
  output : List Diag
  deriving Repr

/-- The HTTP world: what response each request receives. -/
abbrev Env := Request → Response

/-- Python truthiness of an optional string (`if access_key and secret_key`). -/
def truthyStr : Option String → Bool
  | Option.some s => s ≠ ""
  | Option.none => false

/-- Python truthiness of an optional int (`if end_time:`): `None` and `0` are falsy. -/
def truthyInt : Option Int → Bool
  | Option.some n => n ≠ 0
  | Option.none => false

/-- Python dict assignment `headers[k] = v`: replace in place or append. -/
def setHeader : List (String × String) → String → String → List (String × String)
  | [], k, v => [(k, v)]
  | (k0, v0) :: rest, k, v =>
      if k0 = k then (k, v) :: rest else (k0, v0) :: setHeader rest k v

/-- The diagnostic printed on a non-200 response. -/
def mkDiag (r : Response) : Diag :=
  { status := r.status_code, headers := r.headers, text := r.text }

/-- Serialise an optional string into a JSON payload value (`None` → null). -/
def optStrJson : Option String → Json
  | Option.some s => Json.str s
  | Option.none => Json.null

/-- The uniform body of every JSON-returning method: issue `req`, on 200 return
`response.json()`, otherwise print the diagnostic and return `None`. -/
def jsonGet (s : Session) (req : Request) (env : Env) : CallResult :=
  let response := env req
  if response.status_code = 200 then
    { session := s, ret := Ret.json response.jsonBody, requests := [req], output := [] }
  else
    { session := s, ret := Ret.none, requests := [req], output := [mkDiag response] }

/-- The uniform body of the binary methods: on 200 return `response.content`. -/
def bytesGet (s : Session) (req : Request) (env : Env) : CallResult :=
  let response := env req
  if response.status_code = 200 then
    { session := s, ret := Ret.bytes response.content, requests := [req], output := [] }
  else
    { session := s, ret := Ret.none, requests := [req], output := [mkDiag response] }

namespace NessusClient

/-- `NessusClient.__init__`: store credentials and base URL, create the session,
set `session.verify`, and if an access/secret key pair is (truthily) present
replace the session headers with the `X-ApiKeys` header.  The second component
is the list of HTTP requests issued during construction (there are none). -/
def init (server : String) (username password access_key secret_key : Option String)
    (verify_cert : Bool) : Session × List Request :=
  let base : Session :=
    { username := username, password := password, base_url := server,
      headers := [], verify := verify_cert }
  let s :=
    if truthyStr access_key && truthyStr secret_key then
      { base with
          headers := [("X-ApiKeys",
            "accessKey=" ++ access_key.getD "" ++ "; secretKey=" ++ secret_key.getD "")] }
    else base
  (s, [])

/-- The `POST /session` request of `session_create`, with its JSON payload. -/
def session_create_req (s : Session) : Request :=
  { method := HMethod.post, url := s.base_url ++ "/session", headers := s.headers,
    params := Option.none,
    body := Option.some (Body.jsonPayload (Json.obj
      [("username", optStrJson s.username), ("password", optStrJson s.password)])) }

/-- `session_create`: on 200, store `X-Cookie: token=<token>;` on the session
headers; otherwise print the diagnostic.  A 200 body without a `"token"` key is
a Python `KeyError`, modelled as `Except.error`. -/
def session_create (s : Session) (env : Env) : Except String CallResult :=
  let req := session_create_req s
  let response := env req
  if response.status_code = 200 then
    match response.jsonBody.lookup "token" with
    | Option.some tok =>
        Except.ok
          { session :=
              { s with headers := setHeader s.headers "X-Cookie" ("token=" ++ Json.pyStr tok ++ ";") },
            ret := Ret.none, requests := [req], output := [] }
    | Option.none => Except.error "KeyError: token"
  else
    Except.ok { session := s, ret := Ret.none, requests := [req], output := [mkDiag response] }

/-- `GET /server/properties`. -/
def server_properties_req (s : Session) : Request :=
  { method := HMethod.get, url := s.base_url ++ "/server/properties",
    headers := s.headers, params := Option.none, body := Option.none }

/-- `server_properties`. -/
def server_properties (s : Session) (env : Env) : CallResult :=
  jsonGet s (server_properties_req s) env

/-- `GET /server/status`. -/
def server_status_req (s : Session) : Request :=
  { method := HMethod.get, url := s.base_url ++ "/server/status",
    headers := s.headers, params := Option.none, body := Option.none }

/-- `server_status`: 200 → json, 503 → sentinel dict; any other status falls
off the end of the method (returns `None`, prints nothing). -/
def server_status (s : Session) (env : Env) : CallResult :=
  let req := server_status_req s
  let response := env req
  if response.status_code = 200 then
    { session := s, ret := Ret.json response.jsonBody, requests := [req], output := [] }
  else if response.status_code = 503 then
    { session := s,
      ret := Ret.json (Json.obj [("status", Json.str "503 - Session Destroy required.")]),
      requests := [req], output := [] }
  else
    { session := s, ret := Ret.none, requests := [req], output := [] }

/-- `GET /settings/health/alerts`: params built key by key, a key added only
when its argument is truthy (so `None` and `0` are both omitted). -/
def server_health_alerts_req (s : Session) (end_time start_time : Option Int) : Request :=
  let params :=
    (if truthyInt end_time then [("end_time", end_time)] else []) ++
    (if truthyInt start_time then [("start_time", start_time)] else [])
  { method := HMethod.get, url := s.base_url ++ "/settings/health/alerts",
    headers := s.headers, params := Option.some params, body := Option.none }

/-- `server_health_alerts`. -/
def server_health_alerts (s : Session) (end_time start_time : Option Int)
    (env : Env) : CallResult :=
  jsonGet s (server_health_alerts_req s end_time start_time) env

/-- `GET /scans/{scan_id}/attachments/{attachment_id}`: the `key` argument of
the method does not appear anywhere in the request. -/
def scans_attachment_req (s : Session) (scan_id attachment_id : String) : Request :=
  { method := HMethod.get,
    url := s.base_url ++ "/scans/" ++ scan_id ++ "/attachments/" ++ attachment_id,
    headers := s.headers, params := Option.none, body := Option.none }

/-- `scans_attachment`: takes `key` but never transmits it. -/
def scans_attachment (s : Session) (scan_id attachment_id key : String)
    (env : Env) : CallResult :=
  bytesGet s (scans_attachment_req s scan_id attachment_id) env

/-- `PUT /scans/{scan_id}` with form body `{uuid, settings}`. -/
def scans_configure_req (s : Session) (scan_id : Int) (uuid : String)
    (settings : Json) : Request :=
  { method := HMethod.put, url := s.base_url ++ "/scans/" ++ toString scan_id,
    headers := s.headers, params := Option.none,
    body := Option.some (Body.form (Json.obj
      [("uuid", Json.str uuid), ("settings", settings)])) }

/-- `scans_configure`. -/
def scans_configure (s : Session) (scan_id : Int) (uuid : String) (settings : Json)
    (env : Env) : CallResult :=
  jsonGet s (scans_configure_req s scan_id uuid settings) env

/-- `GET /scans/{scan_id}`. -/
def scans_details_req (s : Session) (scan_id : Int) : Request :=
  { method := HMethod.get, url := s.base_url ++ "/scans/" ++ toString scan_id,
    headers := s.headers, params := Option.none, body := Option.none }

/-- `scans_details`. -/
def scans_details (s : Session) (scan_id : Int) (env : Env) : CallResult :=
  jsonGet s (scans_details_req s scan_id) env

/-- `GET /scans/{scan_id}/export/formats`. -/
def scans_export_formats_req (s : Session) (scan_id : Int) : Request :=
  { method := HMethod.get,
    url := s.base_url ++ "/scans/" ++ toString scan_id ++ "/export/formats",
    headers := s.headers, params := Option.none, body := Option.none }

/-- `scans_export_formats`. -/
def scans_export_formats (s : Session) (scan_id : Int) (env : Env) : CallResult :=
  jsonGet s (scans_export_formats_req s scan_id) env

/-- `GET /scans/{scan_id}/export/{file_id}/download`. -/
def scans_export_download_req (s : Session) (scan_id file_id : Int) : Request :=
  { method := HMethod.get,
    url := s.base_url ++ "/scans/" ++ toString scan_id ++ "/export/" ++
      toString file_id ++ "/download",
    headers := s.headers, params := Option.none, body := Option.none }

/-- `scans_export_download`. -/
def scans_export_download (s : Session) (scan_id file_id : Int) (env : Env) : CallResult :=
  bytesGet s (scans_export_download_req s scan_id file_id) env

/-- `POST /scans/{scan_id}/export` with the nested report-contents form body.
The `synopsis` argument is accepted (defaulting to true) but absent from the
payload. -/
def scans_export_request_req (s : Session) (scan_id : Int) ( format : String)
    (scan_info : Bool := true) (host_info : Bool := true) (base_score : Bool := true)
    (synopsis : Bool := true) (description : Bool := true) (see_also : Bool := true)
    (solution : Bool := true) (temporal_score : Bool := true) (risk_factor : Bool := true)
    (base_score_v3 : Bool := true) (temporal_score_v3 : Bool := true) (stig : Bool := true)
    (references : Bool := true) (exploitable_with : Bool := true)
    (plugin_info : Bool := true) (plugin_output : Bool := true) : Request :=
  let payload := Json.obj
    [("format", Json.str format),
     ("reportContents", Json.obj
       [("hostSections", Json.obj
          [("host_information", Json.bool host_info),
           ("scan_information", Json.bool scan_info)]),
        ("vulnerabilitySections", Json.obj
          [("description", Json.bool description),
           ("see_also", Json.bool see_also),
           ("solution", Json.bool solution),
           ("risk_factor", Json.bool risk_factor),
           ("cvss_base_score", Json.bool base_score),
           ("cvss_temporal_score", Json.bool temporal_score),
           ("cvss3_base_score", Json.bool base_score_v3),
           ("cvss3_temporal_score", Json.bool temporal_score_v3),
           ("stig_severity", Json.bool stig),
           ("references", Json.bool references),
           ("exploitable_with", Json.bool exploitable_with),
           ("plugin_information", Json.bool plugin_info),
           ("plugin_output", Json.bool plugin_output)])])]
  { method := HMethod.post,
    url := s.base_url ++ "/scans/" ++ toString scan_id ++ "/export",
    headers := s.headers, params := Option.none,
    body := Option.some (Body.form payload) }

/-- `scans_export_request`. -/
def scans_export_request (s : Session) (scan_id : Int) ( format : String)
    (scan_info host_info base_score synopsis description see_also solution
     temporal_score risk_factor base_score_v3 temporal_score_v3 stig references
     exploitable_with plugin_info plugin_output : Bool) (env : Env) : CallResult :=
  jsonGet s
    (scans_export_request_req s scan_id format scan_info host_info base_score synopsis
      description see_also solution temporal_score risk_factor base_score_v3
      temporal_score_v3 stig references exploitable_with plugin_info plugin_output) env

/-- `GET /scans/{scan_id}/export/{file_id}/status`. -/
def scans_export_status_req (s : Session) (scan_id file_id : Int) : Request :=
  { method := HMethod.get,
    url := s.base_url ++ "/scans/" ++ toString scan_id ++ "/export/" ++
      toString file_id ++ "/status",
    headers := s.headers, params := Option.none, body := Option.none }

/-- `scans_export_status`. -/
def scans_export_status (s : Session) (scan_id file_id : Int) (env : Env) : CallResult :=
  jsonGet s (scans_export_status_req s scan_id file_id) env

/-- `GET /scans/{scan_id}/hosts/{host_id}`. -/
def scans_host_details_req (s : Session) (scan_id host_id : Int) : Request :=
  { method := HMethod.get,
    url := s.base_url ++ "/scans/" ++ toString scan_id ++ "/hosts/" ++ toString host_id,
    headers := s.headers, params := Option.none, body := Option.none }

/-- `scans_host_details`. -/
def scans_host_details (s : Session) (scan_id host_id : Int) (env : Env) : CallResult :=
  jsonGet s (scans_host_details_req s scan_id host_id) env

/-- `GET /scans`: the params dict always carries both keys, the unsupplied
arguments appearing as Python `None` values. -/
def scans_list_req (s : Session) (folder_id last_mod_date : Option Int) : Request :=
  { method := HMethod.get, url := s.base_url ++ "/scans", headers := s.headers,
    params := Option.some
      [("folder_id", folder_id), ("last_modification_date", last_mod_date)],
    body := Option.none }

/-- `scans_list`. -/
def scans_list (s : Session) (folder_id last_mod_date : Option Int)
    (env : Env) : CallResult :=
  jsonGet s (scans_list_req s folder_id last_mod_date) env

/-- `GET /scans/{scan_id}/hosts/{host_id}/plugins/{plugin_id}`: params is the
singleton `history_id` dict when that argument is truthy, else Python `None`. -/
def scans_plugin_output_req (s : Session) (scan_id host_id plugin_id : Int)
    (history_id : Option Int) : Request :=
  { method := HMethod.get,
    url := s.base_url ++ "/scans/" ++ toString scan_id ++ "/hosts/" ++
      toString host_id ++ "/plugins/" ++ toString plugin_id,
    headers := s.headers,
    params := if truthyInt history_id then Option.some [("history_id", history_id)]
              else Option.none,
    body := Option.none }

/-- `scans_plugin_output`. -/
def scans_plugin_output (s : Session) (scan_id host_id plugin_id : Int)
    (history_id : Option Int) (env : Env) : CallResult :=
  jsonGet s (scans_plugin_output_req s scan_id host_id plugin_id history_id) env

end NessusClient

/-! Helper lemmas about the header-map update and the two request/response
interpretation patterns. -/

/-- Looking up the key just written by `setHeader` yields the written value. -/
theorem setHeader_lookup_self (hs : List (String × String)) (k v : String) :
    (setHeader hs k v).lookup k = Option.some v := by
  induction hs with
  | nil => simp [setHeader, List.lookup]
  | cons p rest ih =>
    by_cases hk : p.1 = k
    · simp [setHeader, hk, List.lookup]
    · have hk2 : (k == p.1) = false := by
        simp [Ne.symm hk]
      simp [setHeader, hk, List.lookup, hk2, ih]

/-- `setHeader` leaves every other key's binding unchanged. -/
theorem setHeader_lookup_ne (hs : List (String × String)) (k v k2 : String)
    (h : k2 ≠ k) :
    (setHeader hs k v).lookup k2 = hs.lookup k2 := by
  have hbeq : (k2 == k) = false := by simp [h]
  induction hs with
  | nil =>
    simp [setHeader, List.lookup, hbeq]
  | cons p rest ih =>
    obtain ⟨pk, pv⟩ := p
    by_cases hk : pk = k
    · subst hk
      simp [setHeader, List.lookup, hbeq]
    · simp [setHeader, hk, List.lookup, ih]

/-- `jsonGet` never changes the session state. -/
theorem jsonGet_session (s : Session) (req : Request) (env : Env) :
    (jsonGet s req env).session = s := by
  by_cases h : (env req).status_code = 200 <;> simp [jsonGet, h]

/-- `bytesGet` never changes the session state. -/
theorem bytesGet_session (s : Session) (req : Request) (env : Env) :
    (bytesGet s req env).session = s := by
  by_cases h : (env req).status_code = 200 <;> simp [bytesGet, h]

/-- `jsonGet` issues exactly its one request. -/
theorem jsonGet_requests (s : Session) (req : Request) (env : Env) :
    (jsonGet s req env).requests = [req] := by
  by_cases h : (env req).status_code = 200 <;> simp [jsonGet, h]

/-! Concrete sample inputs used by the witness theorems. -/

/-- A sample session state with an API-key header. -/
def sampleSession : Session :=
  { username := Option.none, password := Option.none, base_url := "https://scanner:8834",
    headers := [("X-ApiKeys", "accessKey=a; secretKey=b")], verify := true }

/-- A sample JSON body. -/
def sampleJson : Json := Json.obj [("ok", Json.bool true)]

/-- A 200 response carrying `sampleJson` and two content bytes. -/
def resp200 : Response :=
  { status_code := 200, headers := [], text := "", jsonBody := sampleJson,
    content := [13, 10] }

/-- A world answering every request with `resp200`. -/
def env200 : Env := fun _ => resp200

/-- A 500 response. -/
def resp500 : Response :=
  { status_code := 500, headers := [("Server", "nessus")], text := "oops",
    jsonBody := Json.null, content := [] }

/-- A world answering every request with `resp500`. -/
def env500 : Env := fun _ => resp500

/-- A 503 response. -/
def resp503 : Response :=
  { status_code := 503, headers := [], text := "busy", jsonBody := Json.null, content := [] }

/-- A world answering every request with `resp503`. -/
def env503 : Env := fun _ => resp503

/-- A session constructed with username/password credentials. -/
def credSession : Session :=
  { username := Option.some "admin", password := Option.some "pw",
    base_url := "https://scanner:8834", headers := [("K", "v")], verify := true }

/-- A 200 login response whose body carries the session token. -/
def tokenResp : Response :=
  { status_code := 200, headers := [], text := "",
    jsonBody := Json.obj [("token", Json.str "abc123")], content := [] }

/-- A world answering every request with `tokenResp`. -/
def tokenEnv : Env := fun _ => tokenResp

/-- The call result `session_create` produces on `credSession` in `tokenEnv`. -/
def tokenCallResult : CallResult :=
  { session :=
      { credSession with
          headers := setHeader credSession.headers "X-Cookie"
            ("token=" ++ Json.pyStr (Json.str "abc123") ++ ";") },
    ret := Ret.none, requests := [NessusClient.session_create_req credSession],
    output := [] }

/-! Claim theorems. -/

/-- C1: every request-issuing client method passes a 200 response body through
unchanged: the parsed JSON structure for the JSON methods, the raw bytes for
the binary methods (`scans_attachment`, `scans_export_download`). -/
theorem pass_through_200 :
    (∀ s env, (env (NessusClient.server_properties_req s)).status_code = 200 →
      (NessusClient.server_properties s env).ret =
        Ret.json (env (NessusClient.server_properties_req s)).jsonBody) ∧
    (∀ s env, (env (NessusClient.server_status_req s)).status_code = 200 →
      (NessusClient.server_status s env).ret =
        Ret.json (env (NessusClient.server_status_req s)).jsonBody) ∧
    (∀ s env e st, (env (NessusClient.server_health_alerts_req s e st)).status_code = 200 →
      (NessusClient.server_health_alerts s e st env).ret =
        Ret.json (env (NessusClient.server_health_alerts_req s e st)).jsonBody) ∧
    (∀ s env fid lmd, (env (NessusClient.scans_list_req s fid lmd)).status_code = 200 →
      (NessusClient.scans_list s fid lmd env).ret =
        Ret.json (env (NessusClient.scans_list_req s fid lmd)).jsonBody) ∧
    (∀ s env sid, (env (NessusClient.scans_details_req s sid)).status_code = 200 →
      (NessusClient.scans_details s sid env).ret =
        Ret.json (env (NessusClient.scans_details_req s sid)).jsonBody) ∧
    (∀ s env sid hid, (env (NessusClient.scans_host_details_req s sid hid)).status_code = 200 →
      (NessusClient.scans_host_details s sid hid env).ret =
        Ret.json (env (NessusClient.scans_host_details_req s sid hid)).jsonBody) ∧
    (∀ s env sid hid pid hist,
      (env (NessusClient.scans_plugin_output_req s sid hid pid hist)).status_code = 200 →
      (NessusClient.scans_plugin_output s sid hid pid hist env).ret =
        Ret.json (env (NessusClient.scans_plugin_output_req s sid hid pid hist)).jsonBody) ∧
    (∀ s env sid, (env (NessusClient.scans_export_formats_req s sid)).status_code = 200 →
      (NessusClient.scans_export_formats s sid env).ret =
        Ret.json (env (NessusClient.scans_export_formats_req s sid)).jsonBody) ∧
    (∀ s env sid fid, (env (NessusClient.scans_export_status_req s sid fid)).status_code = 200 →
      (NessusClient.scans_export_status s sid fid env).ret =
        Ret.json (env (NessusClient.scans_export_status_req s sid fid)).jsonBody) ∧
    (∀ s env sid uuid settings,
      (env (NessusClient.scans_configure_req s sid uuid settings)).status_code = 200 →
      (NessusClient.scans_configure s sid uuid settings env).ret =
        Ret.json (env (NessusClient.scans_configure_req s sid uuid settings)).jsonBody) ∧
    (∀ s env sid fmt b1 b2 b3 b4 b5 b6 b7 b8 b9 b10 b11 b12 b13 b14 b15 b16,
      (env (NessusClient.scans_export_request_req s sid fmt b1 b2 b3 b4 b5 b6 b7 b8
        b9 b10 b11 b12 b13 b14 b15 b16)).status_code = 200 →
      (NessusClient.scans_export_request s sid fmt b1 b2 b3 b4 b5 b6 b7 b8 b9 b10
        b11 b12 b13 b14 b15 b16 env).ret =
        Ret.json (env (NessusClient.scans_export_request_req s sid fmt b1 b2 b3 b4 b5
          b6 b7 b8 b9 b10 b11 b12 b13 b14 b15 b16)).jsonBody) ∧
    (∀ s env sid aid k, (env (NessusClient.scans_attachment_req s sid aid)).status_code = 200 →
      (NessusClient.scans_attachment s sid aid k env).ret =
        Ret.bytes (env (NessusClient.scans_attachment_req s sid aid)).content) ∧
    (∀ s env sid fid, (env (NessusClient.scans_export_download_req s sid fid)).status_code = 200 →
      (NessusClient.scans_export_download s sid fid env).ret =
        Ret.bytes (env (NessusClient.scans_export_download_req s sid fid)).content) := by
  refine ⟨?_, ?_, ?_, ?_, ?_, ?_, ?_, ?_, ?_, ?_, ?_, ?_, ?_⟩ <;> intros <;>
    simp_all [NessusClient.server_properties, NessusClient.server_status,
      NessusClient.server_health_alerts, NessusClient.scans_list,
      NessusClient.scans_details, NessusClient.scans_host_details,
      NessusClient.scans_plugin_output, NessusClient.scans_export_formats,
      NessusClient.scans_export_status, NessusClient.scans_configure,
      NessusClient.scans_export_request, NessusClient.scans_attachment,
      NessusClient.scans_export_download, jsonGet, bytesGet]

/-- C1 witness: `server_properties` (JSON) and `scans_export_download` (bytes)
at the sample 200 world. -/
theorem pass_through_200_witness :
    (env200 (NessusClient.server_properties_req sampleSession)).status_code = 200 ∧
    (NessusClient.server_properties sampleSession env200).ret = Ret.json sampleJson ∧
    (NessusClient.scans_export_download sampleSession 5 9 env200).ret = Ret.bytes [13, 10] :=
  ⟨rfl, pass_through_200.1 sampleSession env200 rfl,
    pass_through_200.2.2.2.2.2.2.2.2.2.2.2.2 sampleSession env200 5 9 rfl⟩

/-- C3: `server_status` on a 503 response returns exactly the sentinel
structure and prints nothing. -/
theorem server_status_503_sentinel :
    ∀ s env, (env (NessusClient.server_status_req s)).status_code = 503 →
      (NessusClient.server_status s env).ret =
        Ret.json (Json.obj [("status", Json.str "503 - Session Destroy required.")]) ∧
      (NessusClient.server_status s env).output = [] := by
  intro s env h
  simp [NessusClient.server_status, h]

/-- C3 witness: `server_status` at the concrete 503 world. -/
theorem server_status_503_sentinel_witness :
    (env503 (NessusClient.server_status_req sampleSession)).status_code = 503 ∧
    (NessusClient.server_status sampleSession env503).ret =
      Ret.json (Json.obj [("status", Json.str "503 - Session Destroy required.")]) :=
  ⟨rfl, (server_status_503_sentinel sampleSession env503 rfl).1⟩

/-- C9: `scans_attachment` ignores its `key` argument entirely: for any two
key values the whole call result (request issued, return value, state,
output) is identical, and the one request it issues carries no query
parameters and no body. -/
theorem attachment_key_independent :
    (∀ s env sid aid k1 k2,
      NessusClient.scans_attachment s sid aid k1 env =
        NessusClient.scans_attachment s sid aid k2 env) ∧
    (∀ s sid aid, (NessusClient.scans_attachment_req s sid aid).params = Option.none ∧
      (NessusClient.scans_attachment_req s sid aid).body = Option.none ∧
      (NessusClient.scans_attachment_req s sid aid).headers = s.headers) := by
  exact ⟨fun s env sid aid k1 k2 => rfl, fun s sid aid => ⟨rfl, rfl, rfl⟩⟩

/-- C10: `scans_export_request` ignores its `synopsis` argument: for any two
synopsis values (all other arguments fixed) the whole call result is
identical. -/
theorem export_request_synopsis_independent :
    ∀ s env sid fmt scan_info host_info base_score syn1 syn2 description see_also
      solution temporal_score risk_factor base_score_v3 temporal_score_v3 stig
      references exploitable_with plugin_info plugin_output,
      NessusClient.scans_export_request s sid fmt scan_info host_info base_score syn1
        description see_also solution temporal_score risk_factor base_score_v3
        temporal_score_v3 stig references exploitable_with plugin_info plugin_output env =
      NessusClient.scans_export_request s sid fmt scan_info host_info base_score syn2
        description see_also solution temporal_score risk_factor base_score_v3
        temporal_score_v3 stig references exploitable_with plugin_info plugin_output env := by
  intros
  rfl

/-- C2 counterexample: `server_status` on a 500 response (neither 200 nor the
503 special case) returns nothing but emits NO diagnostic — its `if`/`elif`
chain has no printing else-branch, contradicting the claim that every method
prints status, headers and body on non-200. -/
theorem server_status_silent_counterexample :
    resp500.status_code ≠ 200 ∧ resp500.status_code ≠ 503 ∧
    (NessusClient.server_status sampleSession env500).ret = Ret.none ∧
    (NessusClient.server_status sampleSession env500).output = [] :=
  ⟨by decide, by decide, rfl, rfl⟩

/-- C2 amended: on any non-200 response every method except `server_status`
returns nothing and prints the diagnostic (status code, headers, body) without
raising; `server_status` on a status other than 200 and 503 returns nothing
silently, printing no diagnostic. -/
theorem non_200_diagnostics :
    (∀ s env, (env (NessusClient.session_create_req s)).status_code ≠ 200 →
      NessusClient.session_create s env =
        Except.ok
          { session := s, ret := Ret.none,
            requests := [NessusClient.session_create_req s],
            output := [mkDiag (env (NessusClient.session_create_req s))] }) ∧
    (∀ s env, (env (NessusClient.server_properties_req s)).status_code ≠ 200 →
      (NessusClient.server_properties s env).ret = Ret.none ∧
      (NessusClient.server_properties s env).output =
        [mkDiag (env (NessusClient.server_properties_req s))]) ∧
    (∀ s env e st, (env (NessusClient.server_health_alerts_req s e st)).status_code ≠ 200 →
      (NessusClient.server_health_alerts s e st env).ret = Ret.none ∧
      (NessusClient.server_health_alerts s e st env).output =
        [mkDiag (env (NessusClient.server_health_alerts_req s e st))]) ∧
    (∀ s env fid lmd, (env (NessusClient.scans_list_req s fid lmd)).status_code ≠ 200 →
      (NessusClient.scans_list s fid lmd env).ret = Ret.none ∧
      (NessusClient.scans_list s fid lmd env).output =
        [mkDiag (env (NessusClient.scans_list_req s fid lmd))]) ∧
    (∀ s env sid, (env (NessusClient.scans_details_req s sid)).status_code ≠ 200 →
      (NessusClient.scans_details s sid env).ret = Ret.none ∧
      (NessusClient.scans_details s sid env).output =
        [mkDiag (env (NessusClient.scans_details_req s sid))]) ∧
    (∀ s env sid hid, (env (NessusClient.scans_host_details_req s sid hid)).status_code ≠ 200 →
      (NessusClient.scans_host_details s sid hid env).ret = Ret.none ∧
      (NessusClient.scans_host_details s sid hid env).output =
        [mkDiag (env (NessusClient.scans_host_details_req s sid hid))]) ∧
    (∀ s env sid hid pid hist,
      (env (NessusClient.scans_plugin_output_req s sid hid pid hist)).status_code ≠ 200 →
      (NessusClient.scans_plugin_output s sid hid pid hist env).ret = Ret.none ∧
      (NessusClient.scans_plugin_output s sid hid pid hist env).output =
        [mkDiag (env (NessusClient.scans_plugin_output_req s sid hid pid hist))]) ∧
    (∀ s env sid, (env (NessusClient.scans_export_formats_req s sid)).status_code ≠ 200 →
      (NessusClient.scans_export_formats s sid env).ret = Ret.none ∧
      (NessusClient.scans_export_formats s sid env).output =
        [mkDiag (env (NessusClient.scans_export_formats_req s sid))]) ∧
    (∀ s env sid fid, (env (NessusClient.scans_export_status_req s sid fid)).status_code ≠ 200 →
      (NessusClient.scans_export_status s sid fid env).ret = Ret.none ∧
      (NessusClient.scans_export_status s sid fid env).output =
        [mkDiag (env (NessusClient.scans_export_status_req s sid fid))]) ∧
    (∀ s env sid uuid settings,
      (env (NessusClient.scans_configure_req s sid uuid settings)).status_code ≠ 200 →
      (NessusClient.scans_configure s sid uuid settings env).ret = Ret.none ∧
      (NessusClient.scans_configure s sid uuid settings env).output =
        [mkDiag (env (NessusClient.scans_configure_req s sid uuid settings))]) ∧
    (∀ s env sid fmt b1 b2 b3 b4 b5 b6 b7 b8 b9 b10 b11 b12 b13 b14 b15 b16,
      (env (NessusClient.scans_export_request_req s sid fmt b1 b2 b3 b4 b5 b6 b7 b8
        b9 b10 b11 b12 b13 b14 b15 b16)).status_code ≠ 200 →
      (NessusClient.scans_export_request s sid fmt b1 b2 b3 b4 b5 b6 b7 b8 b9 b10
        b11 b12 b13 b14 b15 b16 env).ret = Ret.none ∧
      (NessusClient.scans_export_request s sid fmt b1 b2 b3 b4 b5 b6 b7 b8 b9 b10
        b11 b12 b13 b14 b15 b16 env).output =
        [mkDiag (env (NessusClient.scans_export_request_req s sid fmt b1 b2 b3 b4 b5
          b6 b7 b8 b9 b10 b11 b12 b13 b14 b15 b16))]) ∧
    (∀ s env sid aid k, (env (NessusClient.scans_attachment_req s sid aid)).status_code ≠ 200 →
      (NessusClient.scans_attachment s sid aid k env).ret = Ret.none ∧
      (NessusClient.scans_attachment s sid aid k env).output =
        [mkDiag (env (NessusClient.scans_attachment_req s sid aid))]) ∧
    (∀ s env sid fid, (env (NessusClient.scans_export_download_req s sid fid)).status_code ≠ 200 →
      (NessusClient.scans_export_download s sid fid env).ret = Ret.none ∧
      (NessusClient.scans_export_download s sid fid env).output =
        [mkDiag (env (NessusClient.scans_export_download_req s sid fid))]) ∧
    (∀ s env, (env (NessusClient.server_status_req s)).status_code ≠ 200 →
      (env (NessusClient.server_status_req s)).status_code ≠ 503 →
      (NessusClient.server_status s env).ret = Ret.none ∧
      (NessusClient.server_status s env).output = []) := by
  refine ⟨?_, ?_, ?_, ?_, ?_, ?_, ?_, ?_, ?_, ?_, ?_, ?_, ?_, ?_⟩ <;> intros <;>
    simp_all [NessusClient.session_create, NessusClient.server_properties,
      NessusClient.server_status, NessusClient.server_health_alerts,
      NessusClient.scans_list, NessusClient.scans_details,
      NessusClient.scans_host_details, NessusClient.scans_plugin_output,
      NessusClient.scans_export_formats, NessusClient.scans_export_status,
      NessusClient.scans_configure, NessusClient.scans_export_request,
      NessusClient.scans_attachment, NessusClient.scans_export_download,
      jsonGet, bytesGet]

/-- C2 amended witness: at the 500 world, `server_properties` prints the
diagnostic and returns nothing, while `server_status` stays silent. -/
theorem non_200_diagnostics_witness :
    resp500.status_code ≠ 200 ∧ resp500.status_code ≠ 503 ∧
    (NessusClient.server_properties sampleSession env500).ret = Ret.none ∧
    (NessusClient.server_properties sampleSession env500).output = [mkDiag resp500] ∧
    (NessusClient.server_status sampleSession env500).output = [] :=
  ⟨by decide, by decide,
    (non_200_diagnostics.2.1 sampleSession env500 (by decide)).1,
    (non_200_diagnostics.2.1 sampleSession env500 (by decide)).2,
    (non_200_diagnostics.2.2.2.2.2.2.2.2.2.2.2.2.2 sampleSession env500
      (by decide) (by decide)).2⟩

/-- C5: constructing a client with a (truthy) access/secret key pair sets the
session header map to exactly the `X-ApiKeys` header before any request, and
construction issues no HTTP request for any combination of arguments. -/
theorem init_api_keys_header :
    (∀ server u p ak sk v, ak ≠ "" → sk ≠ "" →
      (NessusClient.init server u p (Option.some ak) (Option.some sk) v).1.headers =
        [("X-ApiKeys", "accessKey=" ++ ak ++ "; secretKey=" ++ sk)]) ∧
    (∀ server u p ak sk v, (NessusClient.init server u p ak sk v).2 = []) := by
  constructor
  · intro server u p ak sk v hak hsk
    simp [NessusClient.init, truthyStr, hak, hsk]
  · intro server u p ak sk v
    rfl

/-- C5 witness: concrete construction with key pair `("ka", "ks")`. -/
theorem init_api_keys_header_witness :
    ("ka" : String) ≠ "" ∧ ("ks" : String) ≠ "" ∧
    (NessusClient.init "https://h" Option.none Option.none (Option.some "ka")
      (Option.some "ks") true).1.headers =
      [("X-ApiKeys", "accessKey=" ++ "ka" ++ "; secretKey=" ++ "ks")] ∧
    (NessusClient.init "https://h" Option.none Option.none (Option.some "ka")
      (Option.some "ks") true).2 = [] :=
  ⟨by decide, by decide,
    init_api_keys_header.1 "https://h" Option.none Option.none "ka" "ks" true
      (by decide) (by decide),
    init_api_keys_header.2 "https://h" Option.none Option.none (Option.some "ka")
      (Option.some "ks") true⟩

/-- C6: every `scans_export_request` call issues exactly one request whose body
is the nested `format`/`reportContents` structure (hostSections and
vulnerabilitySections) with each boolean field taken from the corresponding
argument; with no optional argument overridden, every boolean field is true. -/
theorem export_request_payload_shape :
    (∀ s env sid fmt scan_info host_info base_score synopsis description see_also
      solution temporal_score risk_factor base_score_v3 temporal_score_v3 stig
      references exploitable_with plugin_info plugin_output,
      (NessusClient.scans_export_request s sid fmt scan_info host_info base_score
        synopsis description see_also solution temporal_score risk_factor
        base_score_v3 temporal_score_v3 stig references exploitable_with
        plugin_info plugin_output env).requests =
        [NessusClient.scans_export_request_req s sid fmt scan_info host_info
          base_score synopsis description see_also solution temporal_score
          risk_factor base_score_v3 temporal_score_v3 stig references
          exploitable_with plugin_info plugin_output]) ∧
    (∀ s sid fmt scan_info host_info base_score synopsis description see_also
      solution temporal_score risk_factor base_score_v3 temporal_score_v3 stig
      references exploitable_with plugin_info plugin_output,
      (NessusClient.scans_export_request_req s sid fmt scan_info host_info
        base_score synopsis description see_also solution temporal_score
        risk_factor base_score_v3 temporal_score_v3 stig references
        exploitable_with plugin_info plugin_output).body =
      Option.some (Body.form (Json.obj
        [("format", Json.str fmt),
         ("reportContents", Json.obj
           [("hostSections", Json.obj
              [("host_information", Json.bool host_info),
               ("scan_information", Json.bool scan_info)]),
            ("vulnerabilitySections", Json.obj
              [("description", Json.bool description),
               ("see_also", Json.bool see_also),
               ("solution", Json.bool solution),
               ("risk_factor", Json.bool risk_factor),
               ("cvss_base_score", Json.bool base_score),
               ("cvss_temporal_score", Json.bool temporal_score),
               ("cvss3_base_score", Json.bool base_score_v3),
               ("cvss3_temporal_score", Json.bool temporal_score_v3),
               ("stig_severity", Json.bool stig),
               ("references", Json.bool references),
               ("exploitable_with", Json.bool exploitable_with),
               ("plugin_information", Json.bool plugin_info),
               ("plugin_output", Json.bool plugin_output)])])]))) ∧
    (∀ s sid fmt,
      (NessusClient.scans_export_request_req s sid fmt).body =
      Option.some (Body.form (Json.obj
        [("format", Json.str fmt),
         ("reportContents", Json.obj
           [("hostSections", Json.obj
              [("host_information", Json.bool true),
               ("scan_information", Json.bool true)]),
            ("vulnerabilitySections", Json.obj
              [("description", Json.bool true),
               ("see_also", Json.bool true),
               ("solution", Json.bool true),
               ("risk_factor", Json.bool true),
               ("cvss_base_score", Json.bool true),
               ("cvss_temporal_score", Json.bool true),
               ("cvss3_base_score", Json.bool true),
               ("cvss3_temporal_score", Json.bool true),
               ("stig_severity", Json.bool true),
               ("references", Json.bool true),
               ("exploitable_with", Json.bool true),
               ("plugin_information", Json.bool true),
               ("plugin_output", Json.bool true)])])]))) := by
  refine ⟨?_, ?_, ?_⟩
  · intros
    exact jsonGet_requests _ _ _
  · intros
    rfl
  · intros
    rfl

/-- C7 counterexample: `scans_list` called with neither `folder_id` nor
`last_mod_date` puts BOTH keys into the outgoing query-parameter mapping with
explicit null values — they are not omitted from the mapping this code sends. -/
theorem scans_list_null_params_counterexample :
    (NessusClient.scans_list_req sampleSession Option.none Option.none).params =
      Option.some [("folder_id", Option.none), ("last_modification_date", Option.none)] ∧
    (NessusClient.scans_list sampleSession Option.none Option.none env200).requests =
      [NessusClient.scans_list_req sampleSession Option.none Option.none] :=
  ⟨rfl, rfl⟩

/-- C7 amended: `scans_list` always sends both keys in its query-parameter
mapping, with a null value for each unsupplied argument (the underlying HTTP
library, not this code, drops null-valued parameters when encoding the URL);
`server_health_alerts`, by contrast, genuinely omits unsupplied keys from its
mapping. -/
theorem scans_list_params_explicit_null :
    (∀ s fid lmd,
      (NessusClient.scans_list_req s fid lmd).params =
        Option.some [("folder_id", fid), ("last_modification_date", lmd)]) ∧
    (∀ s, (NessusClient.server_health_alerts_req s Option.none Option.none).params =
      Option.some []) := by
  exact ⟨fun s fid lmd => rfl, fun s => rfl⟩

/-- C4: a 200 login response whose JSON body maps `"token"` to the string `t`
makes `session_create` store the header `X-Cookie: token=<t>;`, and that
header is carried (via the shared session header map) on the request built by
every method of the client from the resulting state. -/
theorem session_token_cookie_header :
    ∀ s env t r,
      (env (NessusClient.session_create_req s)).status_code = 200 →
      (env (NessusClient.session_create_req s)).jsonBody.lookup "token" =
        Option.some (Json.str t) →
      NessusClient.session_create s env = Except.ok r →
      r.session.headers.lookup "X-Cookie" = Option.some ("token=" ++ t ++ ";") ∧
      (NessusClient.session_create_req r.session).headers.lookup "X-Cookie" =
        Option.some ("token=" ++ t ++ ";") ∧
      (NessusClient.server_properties_req r.session).headers.lookup "X-Cookie" =
        Option.some ("token=" ++ t ++ ";") ∧
      (NessusClient.server_status_req r.session).headers.lookup "X-Cookie" =
        Option.some ("token=" ++ t ++ ";") ∧
      (∀ e st, (NessusClient.server_health_alerts_req r.session e st).headers.lookup "X-Cookie" =
        Option.some ("token=" ++ t ++ ";")) ∧
      (∀ sid aid, (NessusClient.scans_attachment_req r.session sid aid).headers.lookup "X-Cookie" =
        Option.some ("token=" ++ t ++ ";")) ∧
      (∀ sid uuid settings,
        (NessusClient.scans_configure_req r.session sid uuid settings).headers.lookup "X-Cookie" =
          Option.some ("token=" ++ t ++ ";")) ∧
      (∀ sid, (NessusClient.scans_details_req r.session sid).headers.lookup "X-Cookie" =
        Option.some ("token=" ++ t ++ ";")) ∧
      (∀ sid, (NessusClient.scans_export_formats_req r.session sid).headers.lookup "X-Cookie" =
        Option.some ("token=" ++ t ++ ";")) ∧
      (∀ sid fid, (NessusClient.scans_export_download_req r.session sid fid).headers.lookup "X-Cookie" =
        Option.some ("token=" ++ t ++ ";")) ∧
      (∀ sid fmt, (NessusClient.scans_export_request_req r.session sid fmt).headers.lookup "X-Cookie" =
        Option.some ("token=" ++ t ++ ";")) ∧
      (∀ sid fid, (NessusClient.scans_export_status_req r.session sid fid).headers.lookup "X-Cookie" =
        Option.some ("token=" ++ t ++ ";")) ∧
      (∀ sid hid, (NessusClient.scans_host_details_req r.session sid hid).headers.lookup "X-Cookie" =
        Option.some ("token=" ++ t ++ ";")) ∧
      (∀ fid lmd, (NessusClient.scans_list_req r.session fid lmd).headers.lookup "X-Cookie" =
        Option.some ("token=" ++ t ++ ";")) ∧
      (∀ sid hid pid hist,
        (NessusClient.scans_plugin_output_req r.session sid hid pid hist).headers.lookup "X-Cookie" =
          Option.some ("token=" ++ t ++ ";")) := by
  intro s env t r h200 htok hok
  simp [NessusClient.session_create, h200, htok] at hok
  subst hok
  have hmain :
      (setHeader s.headers "X-Cookie"
        ("token=" ++ Json.pyStr (Json.str t) ++ ";")).lookup "X-Cookie" =
        Option.some ("token=" ++ t ++ ";") := by
    simp [Json.pyStr, setHeader_lookup_self]
  exact ⟨hmain, hmain, hmain, hmain, fun e st => hmain, fun sid aid => hmain,
    fun sid uuid settings => hmain, fun sid => hmain, fun sid => hmain,
    fun sid fid => hmain, fun sid fmt => hmain, fun sid fid => hmain,
    fun sid hid => hmain, fun fid lmd => hmain, fun sid hid pid hist => hmain⟩

/-- C4 witness: the concrete login world returning token `abc123`. -/
theorem session_token_cookie_header_witness :
    (tokenEnv (NessusClient.session_create_req credSession)).status_code = 200 ∧
    (tokenEnv (NessusClient.session_create_req credSession)).jsonBody.lookup "token" =
      Option.some (Json.str "abc123") ∧
    NessusClient.session_create credSession tokenEnv = Except.ok tokenCallResult ∧
    tokenCallResult.session.headers.lookup "X-Cookie" =
      Option.some ("token=" ++ "abc123" ++ ";") :=
  ⟨rfl, rfl, rfl,
    (session_token_cookie_header credSession tokenEnv "abc123" tokenCallResult
      rfl rfl rfl).1⟩

/-- C8: no method other than construction and `session_create` changes the
session state, every method's request carries the session headers unchanged,
`session_create` preserves every session field except the `X-Cookie` header
entry, and on a non-200 login response it leaves the state entirely
unchanged. -/
theorem session_state_frame :
    (∀ s env r, NessusClient.session_create s env = Except.ok r →
      r.session.username = s.username ∧ r.session.password = s.password ∧
      r.session.base_url = s.base_url ∧ r.session.verify = s.verify ∧
      ∀ k, k ≠ "X-Cookie" → r.session.headers.lookup k = s.headers.lookup k) ∧
    (∀ s env r, NessusClient.session_create s env = Except.ok r →
      (env (NessusClient.session_create_req s)).status_code ≠ 200 → r.session = s) ∧
    (∀ s env, (NessusClient.server_properties s env).session = s ∧
      (NessusClient.server_properties_req s).headers = s.headers) ∧
    (∀ s env, (NessusClient.server_status s env).session = s ∧
      (NessusClient.server_status_req s).headers = s.headers) ∧
    (∀ s env e st, (NessusClient.server_health_alerts s e st env).session = s ∧
      (NessusClient.server_health_alerts_req s e st).headers = s.headers) ∧
    (∀ s env sid aid k, (NessusClient.scans_attachment s sid aid k env).session = s ∧
      (NessusClient.scans_attachment_req s sid aid).headers = s.headers) ∧
    (∀ s env sid uuid settings,
      (NessusClient.scans_configure s sid uuid settings env).session = s ∧
      (NessusClient.scans_configure_req s sid uuid settings).headers = s.headers) ∧
    (∀ s env sid, (NessusClient.scans_details s sid env).session = s ∧
      (NessusClient.scans_details_req s sid).headers = s.headers) ∧
    (∀ s env sid, (NessusClient.scans_export_formats s sid env).session = s ∧
      (NessusClient.scans_export_formats_req s sid).headers = s.headers) ∧
    (∀ s env sid fid, (NessusClient.scans_export_download s sid fid env).session = s ∧
      (NessusClient.scans_export_download_req s sid fid).headers = s.headers) ∧
    (∀ s env sid fmt b1 b2 b3 b4 b5 b6 b7 b8 b9 b10 b11 b12 b13 b14 b15 b16,
      (NessusClient.scans_export_request s sid fmt b1 b2 b3 b4 b5 b6 b7 b8 b9 b10
        b11 b12 b13 b14 b15 b16 env).session = s ∧
      (NessusClient.scans_export_request_req s sid fmt b1 b2 b3 b4 b5 b6 b7 b8 b9
        b10 b11 b12 b13 b14 b15 b16).headers = s.headers) ∧
    (∀ s env sid fid, (NessusClient.scans_export_status s sid fid env).session = s ∧
      (NessusClient.scans_export_status_req s sid fid).headers = s.headers) ∧
    (∀ s env sid hid, (NessusClient.scans_host_details s sid hid env).session = s ∧
      (NessusClient.scans_host_details_req s sid hid).headers = s.headers) ∧
    (∀ s env fid lmd, (NessusClient.scans_list s fid lmd env).session = s ∧
      (NessusClient.scans_list_req s fid lmd).headers = s.headers) ∧
    (∀ s env sid hid pid hist,
      (NessusClient.scans_plugin_output s sid hid pid hist env).session = s ∧
      (NessusClient.scans_plugin_output_req s sid hid pid hist).headers = s.headers) := by
  refine ⟨?_, ?_, ?_, ?_, ?_, ?_, ?_, ?_, ?_, ?_, ?_, ?_, ?_, ?_, ?_⟩
  · intro s env r hok
    by_cases h200 : (env (NessusClient.session_create_req s)).status_code = 200
    · cases htok : (env (NessusClient.session_create_req s)).jsonBody.lookup "token" with
      | none => simp [NessusClient.session_create, h200, htok] at hok
      | some tok =>
        simp [NessusClient.session_create, h200, htok] at hok
        subst hok
        refine ⟨rfl, rfl, rfl, rfl, ?_⟩
        intro k hk
        exact setHeader_lookup_ne s.headers "X-Cookie" _ k hk
    · simp [NessusClient.session_create, h200] at hok
      subst hok
      exact ⟨rfl, rfl, rfl, rfl, fun k hk => rfl⟩
  · intro s env r hok hne
    simp [NessusClient.session_create, hne] at hok
    subst hok
    rfl
  · exact fun s env => ⟨jsonGet_session _ _ _, rfl⟩
  · intro s env
    constructor
    · by_cases h1 : (env (NessusClient.server_status_req s)).status_code = 200
      · simp [NessusClient.server_status, h1]
      · by_cases h2 : (env (NessusClient.server_status_req s)).status_code = 503 <;>
          simp [NessusClient.server_status, h1, h2]
    · rfl
  · exact fun s env e st => ⟨jsonGet_session _ _ _, rfl⟩
  · exact fun s env sid aid k => ⟨bytesGet_session _ _ _, rfl⟩
  · exact fun s env sid uuid settings => ⟨jsonGet_session _ _ _, rfl⟩
  · exact fun s env sid => ⟨jsonGet_session _ _ _, rfl⟩
  · exact fun s env sid => ⟨jsonGet_session _ _ _, rfl⟩
  · exact fun s env sid fid => ⟨bytesGet_session _ _ _, rfl⟩
  · exact fun s env sid fmt b1 b2 b3 b4 b5 b6 b7 b8 b9 b10 b11 b12 b13 b14 b15 b16 =>
      ⟨jsonGet_session _ _ _, rfl⟩
  · exact fun s env sid fid => ⟨jsonGet_session _ _ _, rfl⟩
  · exact fun s env sid hid => ⟨jsonGet_session _ _ _, rfl⟩
  · exact fun s env fid lmd => ⟨jsonGet_session _ _ _, rfl⟩
  · exact fun s env sid hid pid hist => ⟨jsonGet_session _ _ _, rfl⟩

/-- C8 witness: concrete login run plus a read-only call at the 500 world. -/
theorem session_state_frame_witness :
    NessusClient.session_create credSession tokenEnv = Except.ok tokenCallResult ∧
    ("K" : String) ≠ "X-Cookie" ∧
    tokenCallResult.session.headers.lookup "K" = credSession.headers.lookup "K" ∧
    (NessusClient.server_properties credSession env500).session = credSession :=
  ⟨rfl, by decide,
    (session_state_frame.1 credSession tokenEnv tokenCallResult rfl).2.2.2.2 "K"
      (by decide),
    (session_state_frame.2.2.1 credSession env500).1⟩

end Nessus
